import Mathlib

/-!
Verification development for the `adaptive_irrigation` Home Assistant
integration.  The Python sources are shallowly embedded: floats become
rationals (`ℚ`), `datetime` values become rational timestamps measured in
seconds, and the mutating handlers of `__init__.py` become pure state
transformers.  All definitions are transcribed from the Python source
(`calculations.py`, `state.py`, `config.py`, `__init__.py`); deviations
forced by fields that the source reads but never declares are documented
at the definition site.
-/

namespace AdaptiveIrrigation

/-- Zone configuration, from `config.py` (`ZoneConfig`).  String-valued
fields (`name`, `zone_id`, `sprinkler_entity`) are irrelevant to the
numeric behaviour and omitted. -/
structure ZoneConfig where
  precipitation_rate : ℚ      -- mm/hour
  crop_coefficient : ℚ        -- Kc for ET adjustment
  max_runtime : ℚ             -- seconds
  min_runtime : ℚ             -- seconds
  minimum_interval : ℚ        -- seconds between irrigation cycles
  max_balance : ℚ             -- mm
  min_balance : ℚ             -- mm
  deriving Repr, DecidableEq

/-- The reason string returned by `_evaluate_can_run` in
`calculations.py`, abstracted to its identity (the Python strings embed
formatted numbers; only which branch fired matters here). -/
inductive Reason where
  | minIntervalNotMet
  | noMoistureDeficit
  | forecastCoversDeficit
  | runtimeTooShort
  | readyToRun
  deriving Repr, DecidableEq

/-- The calculated snapshot written by `update_zone_calculations` into
`zone_state.calculated` (fields per `calculations.py` lines 136-143).

Modelled from the spec: `state.py` never declares a `calculated`
attribute on `ZoneState` (nor a `CalculatedSnapshot` class), although
`calculations.py` writes `zone_state.calculated.<field>`; the field
list here follows the spec's CalculatedSnapshot, which coincides with
the writes in `calculations.py`. -/
structure CalculatedSnapshot where
  effective_deficit_mm : ℚ
  required_runtime_seconds : ℚ
  clamped_runtime_seconds : ℚ
  forecast_rain_mm : ℚ
  can_run : Bool
  reason : Reason
  deriving Repr, DecidableEq

/-- Per-zone mutable state, from `state.py` (`ZoneState`).

Modelled from the spec: `state.py` declares neither `sprinkler_off_time`
nor `calculated`, yet `calculations.py` (line 168) and
`binary_sensor.py` (line 110) read `zone_state.sprinkler_off_time`, and
`calculations.py` (line 137) reads `zone_state.calculated`.  Both fields
are included here, following the spec's ZoneState description, so that
the readers can be embedded. -/
structure ZoneState where
  soil_moisture_balance : ℚ          -- mm
  last_rainfall : ℚ                  -- mm
  last_et : ℚ                        -- mm
  last_et_calculation : Option ℚ     -- timestamp (seconds)
  last_midnight_update : Option ℚ    -- timestamp (seconds)
  sprinkler_on_time : Option ℚ       -- timestamp (seconds)
  sprinkler_off_time : Option ℚ      -- timestamp (seconds)
  total_sprinkler_runtime_today : ℚ  -- seconds
  calculated : CalculatedSnapshot
  deriving Repr, DecidableEq

/-- `calculate_effective_deficit` from `calculations.py` lines 45-62. -/
def calculate_effective_deficit (balance forecast_rain : ℚ) : ℚ :=
  if balance ≥ 0 then 0
  else max 0 (|balance| - forecast_rain)

/-- `calculate_runtime_seconds` from `calculations.py` lines 65-82. -/
def calculate_runtime_seconds (deficit_mm precipitation_rate : ℚ) : ℚ :=
  if deficit_mm ≤ 0 ∨ precipitation_rate ≤ 0 then 0
  else (deficit_mm / precipitation_rate) * 3600

/-- The minimum-interval check of `_evaluate_can_run`
(`calculations.py` lines 167-171): true when `sprinkler_off_time` is set
and less than `minimum_interval` seconds have elapsed since it. -/
def min_interval_blocked (zone_config : ZoneConfig) (zone_state : ZoneState)
    (now : ℚ) : Bool :=
  match zone_state.sprinkler_off_time with
  | some off_time => decide (now - off_time < zone_config.minimum_interval)
  | none => false

/-- `_evaluate_can_run` from `calculations.py` lines 146-185.  The call
`datetime.now()` becomes the explicit parameter `now`. -/
def _evaluate_can_run (balance effective_deficit required_runtime : ℚ)
    (zone_config : ZoneConfig) (zone_state : ZoneState) (now : ℚ) :
    Bool × Reason :=
  if min_interval_blocked zone_config zone_state now then
    (false, Reason.minIntervalNotMet)
  else if balance ≥ 0 then
    (false, Reason.noMoistureDeficit)
  else if effective_deficit ≤ 0 then
    (false, Reason.forecastCoversDeficit)
  else if required_runtime < zone_config.min_runtime then
    (false, Reason.runtimeTooShort)
  else
    (true, Reason.readyToRun)

/-- `update_zone_calculations` from `calculations.py` lines 85-143.  The
external read `get_forecast_rain(hass, config)` becomes the explicit
parameter `forecast_rain`, and `datetime.now()` (inside
`_evaluate_can_run`) the explicit parameter `now`; the in-place mutation
of `zone_state.calculated` becomes a functional update. -/
def update_zone_calculations (now forecast_rain : ℚ)
    (zone_config : ZoneConfig) (zone_state : ZoneState) : ZoneState :=
  let balance := zone_state.soil_moisture_balance
  let effective_deficit := calculate_effective_deficit balance forecast_rain
  let required_runtime :=
    calculate_runtime_seconds effective_deficit zone_config.precipitation_rate
  let clamped_runtime :=
    if required_runtime > 0 then
      max zone_config.min_runtime (min required_runtime zone_config.max_runtime)
    else 0
  let clamped_runtime := max 0 clamped_runtime
  let cr := _evaluate_can_run balance effective_deficit required_runtime
    zone_config zone_state now
  { zone_state with
      calculated :=
        { effective_deficit_mm := effective_deficit
          required_runtime_seconds := required_runtime
          clamped_runtime_seconds := clamped_runtime
          forecast_rain_mm := forecast_rain
          can_run := cr.1
          reason := cr.2 } }

/-- A zone state with everything zero / cleared, for concrete test
inputs (mirrors `initialise_state`: a fresh `ZoneState()` with
`soil_moisture_balance = 0.0`). -/
def freshZone : ZoneState where
  soil_moisture_balance := 0
  last_rainfall := 0
  last_et := 0
  last_et_calculation := none
  last_midnight_update := none
  sprinkler_on_time := none
  sprinkler_off_time := none
  total_sprinkler_runtime_today := 0
  calculated :=
    { effective_deficit_mm := 0
      required_runtime_seconds := 0
      clamped_runtime_seconds := 0
      forecast_rain_mm := 0
      can_run := false
      reason := Reason.noMoistureDeficit }

/-- The zone configuration of spec Example 1 (rate 10 mm/h, runtime
clamp [60, 3600], interval 3600); `crop_coefficient`, `max_balance`,
`min_balance` at their `config.py` defaults. -/
def exampleConfig : ZoneConfig where
  precipitation_rate := 10
  crop_coefficient := 1
  max_runtime := 3600
  min_runtime := 60
  minimum_interval := 3600
  max_balance := 5
  min_balance := -20

/-- The sprinkler turn-on branch of `state_change_listener`
(`__init__.py` lines 169-172): fired when the observed sprinkler state
goes from off to on; it only stamps `sprinkler_on_time = datetime.now()`
(the explicit parameter `now`). -/
def sprinkler_turn_on (now : ℚ) (zone_state : ZoneState) : ZoneState :=
  { zone_state with sprinkler_on_time := some now }

/-- The sprinkler turn-off branch of `state_change_listener`
(`__init__.py` lines 173-196): fired when the observed sprinkler state
goes from on to off.  With a matching `sprinkler_on_time` it accumulates
the runtime, adds `precipitation_rate × hours` of water to the balance
and clears `sprinkler_on_time`; without one it does nothing.  No other
field is touched. -/
def sprinkler_turn_off (now : ℚ) (zone_config : ZoneConfig)
    (zone_state : ZoneState) : ZoneState :=
  match zone_state.sprinkler_on_time with
  | some on_time =>
    let runtime_seconds := now - on_time
    let runtime_hours := runtime_seconds / 3600
    let water_added := zone_config.precipitation_rate * runtime_hours
    { zone_state with
        total_sprinkler_runtime_today :=
          zone_state.total_sprinkler_runtime_today + runtime_seconds
        soil_moisture_balance :=
          zone_state.soil_moisture_balance + water_added
        sprinkler_on_time := none }
  | none => zone_state

/-- `is_valid_precipitation` from `__init__.py` lines 411-413. -/
def is_valid_precipitation (value : ℚ) : Bool :=
  decide (0 ≤ value ∧ value ≤ 500)

/-- The precipitation branch of `state_change_listener` (`__init__.py`
lines 101-129), for a known (not unknown/unavailable) new reading.
`old_precip` is `none` when the old state was missing or
unknown/unavailable (the code then uses `0.0`).  Returns the updated
zone states together with the updated `state.weather.precipitation`.
Invalid raw values and excessive deltas return with nothing mutated. -/
def precipitation_update (new_precip : ℚ) (old_precip : Option ℚ)
    (zones : List ZoneState) (weather_precip : ℚ) :
    List ZoneState × ℚ :=
  if ¬ is_valid_precipitation new_precip then
    (zones, weather_precip)
  else
    let old := old_precip.getD 0
    let precip_diff := new_precip - old
    if precip_diff > 0 then
      if precip_diff > 200 then
        (zones, weather_precip)
      else
        (zones.map fun zone_state =>
          { zone_state with
              soil_moisture_balance :=
                zone_state.soil_moisture_balance + precip_diff
              last_rainfall := precip_diff },
         new_precip)
    else
      (zones, new_precip)

/-- One ledger-relevant event for a single zone, for reasoning about
accumulated balances: either an accepted precipitation sensor update
(`new`, `old` cumulative readings) or a matched irrigation interval
(turn-on at `on_t` followed by turn-off at `off_t`, the composition of
`sprinkler_turn_on` and `sprinkler_turn_off`). -/
inductive LedgerItem where
  | rain (new_precip old_precip : ℚ)
  | irrigation (on_t off_t : ℚ)
  deriving Repr, DecidableEq

/-- Apply one `LedgerItem` to a single zone's state, exactly as
`state_change_listener` would: the rain case is the per-zone mutation of
`precipitation_update`, guarded by the same validity checks; the
irrigation case is `sprinkler_turn_off` after `sprinkler_turn_on`. -/
def apply_ledger_item (zone_config : ZoneConfig) (zone_state : ZoneState) :
    LedgerItem → ZoneState
  | LedgerItem.rain new_precip old_precip =>
    if ¬ is_valid_precipitation new_precip then zone_state
    else
      let precip_diff := new_precip - old_precip
      if precip_diff > 0 then
        if precip_diff > 200 then zone_state
        else
          { zone_state with
              soil_moisture_balance :=
                zone_state.soil_moisture_balance + precip_diff
              last_rainfall := precip_diff }
      else zone_state
  | LedgerItem.irrigation on_t off_t =>
    sprinkler_turn_off off_t zone_config (sprinkler_turn_on on_t zone_state)

/-- Run a sequence of ledger items against a zone. -/
def run_ledger (zone_config : ZoneConfig) (zone_state : ZoneState)
    (items : List LedgerItem) : ZoneState :=
  items.foldl (apply_ledger_item zone_config) zone_state

/-- The balance contribution the spec ascribes to one event: the
rainfall delta, or `precipitation_rate × duration-in-hours` water. -/
def ledger_item_addition (zone_config : ZoneConfig) : LedgerItem → ℚ
  | LedgerItem.rain new_precip old_precip => new_precip - old_precip
  | LedgerItem.irrigation on_t off_t =>
    zone_config.precipitation_rate * ((off_t - on_t) / 3600)

/-- An accepted rainfall event / well-formed irrigation interval, per
the guards in `state_change_listener`: a rain item passes the raw-range
check with a delta in (0, 200]. -/
def accepted_item (item : LedgerItem) : Prop :=
  match item with
  | LedgerItem.rain new_precip old_precip =>
    is_valid_precipitation new_precip = true ∧
    0 < new_precip - old_precip ∧ new_precip - old_precip ≤ 200
  | LedgerItem.irrigation _ _ => True

instance : DecidablePred accepted_item := by
  intro item
  unfold accepted_item
  cases item <;> infer_instance

/-- ET computation methods, the values of `config.et_method`
(`__init__.py` lines 298-310). -/
inductive ETMethod where
  | penman_monteith
  | priestley_taylor
  | hargreaves
  deriving Repr, DecidableEq

/-- The `pyet` formula actually invoked by `calculate_and_apply_et`
(`__init__.py` lines 547-568). -/
inductive ETFormula where
  | pm_fao56
  | priestley_taylor
  | hargreaves
  deriving Repr, DecidableEq

/-- The ET-method auto-selection in `parse_config` (`__init__.py` lines
298-310): wind and solar configured → Penman-Monteith; solar only →
Priestley-Taylor; otherwise Hargreaves. -/
def auto_select_et_method (wind_configured solar_configured : Bool) :
    ETMethod :=
  if wind_configured && solar_configured then ETMethod.penman_monteith
  else if solar_configured then ETMethod.priestley_taylor
  else ETMethod.hargreaves

/-- `calculate_and_apply_et` from `__init__.py` lines 459-599, embedded
for one config entry.  Inputs: `pyet_available` (whether `import pyet`
succeeds), the validated historical readings for each sensor
(`wind_data`/`solar_data` are only queried when the corresponding entity
is configured), the statically selected `et_method`, and `et_result`,
which models the external `pyet` library as a function from the invoked
formula to the ET0 value in mm.  Returns the updated zones (each zone's
balance reduced by `et0 × crop_coefficient`, `last_et` /
`last_et_calculation` stamped, daily runtime counter reset) and the
formula that was invoked (`none` when the computation aborted before
invoking any formula). -/
def calculate_and_apply_et (pyet_available : Bool)
    (temp_data humidity_data : List ℚ)
    (wind_configured solar_configured : Bool)
    (wind_data solar_data : List ℚ)
    (et_method : ETMethod) (et_result : ETFormula → ℚ) (now : ℚ)
    (zones : List (ZoneConfig × ZoneState)) :
    List (ZoneConfig × ZoneState) × Option ETFormula :=
  if ¬ pyet_available then (zones, none)
  else if temp_data.isEmpty || humidity_data.isEmpty then (zones, none)
  else
    let has_wind := wind_configured && !wind_data.isEmpty
    let has_rs := solar_configured && !solar_data.isEmpty
    let formula :=
      match et_method with
      | ETMethod.penman_monteith =>
        if has_wind && has_rs then ETFormula.pm_fao56
        else ETFormula.hargreaves
      | ETMethod.priestley_taylor =>
        if has_rs then ETFormula.priestley_taylor
        else ETFormula.hargreaves
      | ETMethod.hargreaves => ETFormula.hargreaves
    let et_mm := et_result formula
    (zones.map fun zc =>
      let et_actual := et_mm * zc.1.crop_coefficient
      (zc.1,
       { zc.2 with
           soil_moisture_balance := zc.2.soil_moisture_balance - et_actual
           last_et := et_actual
           last_et_calculation := some now
           total_sprinkler_runtime_today := 0 }),
     some formula)

end AdaptiveIrrigation

namespace AdaptiveIrrigation

/-- C4: spec Example 1.  With balance = −12 mm, precipitation_rate =
10 mm/hr, forecast_rain = 0, min_runtime = 60 s, max_runtime = 3600 s
and no minimum-interval block, the evaluator produces
effective_deficit = 12 mm, required_runtime = 4320 s, clamped_runtime =
3600 s, and can_run = true. -/
theorem example1_snapshot :
    (update_zone_calculations 0 0 exampleConfig
      { freshZone with soil_moisture_balance := -12 }
      ).calculated.effective_deficit_mm = 12 ∧
    (update_zone_calculations 0 0 exampleConfig
      { freshZone with soil_moisture_balance := -12 }
      ).calculated.required_runtime_seconds = 4320 ∧
    (update_zone_calculations 0 0 exampleConfig
      { freshZone with soil_moisture_balance := -12 }
      ).calculated.clamped_runtime_seconds = 3600 ∧
    (update_zone_calculations 0 0 exampleConfig
      { freshZone with soil_moisture_balance := -12 }
      ).calculated.can_run = true := by
  norm_num [update_zone_calculations, calculate_effective_deficit,
    calculate_runtime_seconds, _evaluate_can_run, min_interval_blocked,
    exampleConfig, freshZone]

/-- The effective deficit is never negative. -/
lemma calculate_effective_deficit_nonneg (balance forecast_rain : ℚ) :
    0 ≤ calculate_effective_deficit balance forecast_rain := by
  unfold calculate_effective_deficit
  split
  · exact le_refl 0
  · exact le_max_left 0 _

/-- A non-positive deficit yields zero runtime. -/
lemma calculate_runtime_seconds_of_nonpos (deficit_mm precipitation_rate : ℚ)
    (h : deficit_mm ≤ 0) :
    calculate_runtime_seconds deficit_mm precipitation_rate = 0 := by
  unfold calculate_runtime_seconds
  exact if_pos (Or.inl h)

/-- A non-negative balance yields a zero effective deficit. -/
lemma calculate_effective_deficit_of_nonneg (balance forecast_rain : ℚ)
    (h : 0 ≤ balance) :
    calculate_effective_deficit balance forecast_rain = 0 := by
  unfold calculate_effective_deficit
  exact if_pos h

/-- Projection: the snapshot's required runtime is the computed one. -/
lemma calc_required_eq (now forecast_rain : ℚ) (zone_config : ZoneConfig)
    (zone_state : ZoneState) :
    (update_zone_calculations now forecast_rain zone_config zone_state
      ).calculated.required_runtime_seconds =
    calculate_runtime_seconds
      (calculate_effective_deficit zone_state.soil_moisture_balance
        forecast_rain)
      zone_config.precipitation_rate := rfl

/-- Projection: the snapshot's clamped runtime as computed by
`update_zone_calculations` (lines 114-124). -/
lemma calc_clamped_eq (now forecast_rain : ℚ) (zone_config : ZoneConfig)
    (zone_state : ZoneState) :
    (update_zone_calculations now forecast_rain zone_config zone_state
      ).calculated.clamped_runtime_seconds =
    max 0
      (if calculate_runtime_seconds
          (calculate_effective_deficit zone_state.soil_moisture_balance
            forecast_rain)
          zone_config.precipitation_rate > 0 then
        max zone_config.min_runtime
          (min
            (calculate_runtime_seconds
              (calculate_effective_deficit zone_state.soil_moisture_balance
                forecast_rain)
              zone_config.precipitation_rate)
            zone_config.max_runtime)
      else 0) := rfl

/-- Projection: the snapshot's effective deficit is the computed one. -/
lemma calc_effective_eq (now forecast_rain : ℚ) (zone_config : ZoneConfig)
    (zone_state : ZoneState) :
    (update_zone_calculations now forecast_rain zone_config zone_state
      ).calculated.effective_deficit_mm =
    calculate_effective_deficit zone_state.soil_moisture_balance
      forecast_rain := rfl

/-- The arithmetic core of the clamp bound: `max 0 (clamp req)` stays in
`[mn, mx]` for `0 ≤ mn ≤ mx` and positive `req`. -/
lemma clamp_bound_helper (req mn mx : ℚ) (hmin : 0 ≤ mn) (hminmax : mn ≤ mx)
    (hreq : 0 < req) :
    mn ≤ max 0 (if req > 0 then max mn (min req mx) else 0) ∧
    max 0 (if req > 0 then max mn (min req mx) else 0) ≤ mx := by
  rw [if_pos hreq]
  constructor
  · exact le_trans (le_max_left mn _) (le_max_right 0 _)
  · exact max_le (le_trans hmin hminmax)
      (max_le hminmax (min_le_right _ _))

/-- C3: the evaluator applies its conditions in the fixed order
(1) minimum interval since `sprinkler_off_time`, (2) `balance ≥ 0` means
no moisture deficit, (3) forecast rain covers the deficit, (4) required
runtime below `min_runtime`; the first failing condition fixes
`can_run = false` and the reason.  In particular a balance of exactly 0
(condition (2), once condition (1) passes) yields `can_run = false` with
reason "no moisture deficit" for every forecast, and a non-negative
balance is never runnable regardless of the interval state. -/
theorem evaluate_can_run_order (now forecast_rain : ℚ)
    (zone_config : ZoneConfig) (zone_state : ZoneState) :
    (min_interval_blocked zone_config zone_state now = true →
      (update_zone_calculations now forecast_rain zone_config zone_state
        ).calculated.can_run = false ∧
      (update_zone_calculations now forecast_rain zone_config zone_state
        ).calculated.reason = Reason.minIntervalNotMet) ∧
    (min_interval_blocked zone_config zone_state now = false →
      0 ≤ zone_state.soil_moisture_balance →
      (update_zone_calculations now forecast_rain zone_config zone_state
        ).calculated.can_run = false ∧
      (update_zone_calculations now forecast_rain zone_config zone_state
        ).calculated.reason = Reason.noMoistureDeficit) ∧
    (min_interval_blocked zone_config zone_state now = false →
      zone_state.soil_moisture_balance < 0 →
      -zone_state.soil_moisture_balance ≤ forecast_rain →
      (update_zone_calculations now forecast_rain zone_config zone_state
        ).calculated.can_run = false ∧
      (update_zone_calculations now forecast_rain zone_config zone_state
        ).calculated.reason = Reason.forecastCoversDeficit) ∧
    (min_interval_blocked zone_config zone_state now = false →
      zone_state.soil_moisture_balance < 0 →
      forecast_rain < -zone_state.soil_moisture_balance →
      (update_zone_calculations now forecast_rain zone_config zone_state
        ).calculated.required_runtime_seconds < zone_config.min_runtime →
      (update_zone_calculations now forecast_rain zone_config zone_state
        ).calculated.can_run = false ∧
      (update_zone_calculations now forecast_rain zone_config zone_state
        ).calculated.reason = Reason.runtimeTooShort) ∧
    (min_interval_blocked zone_config zone_state now = false →
      zone_state.soil_moisture_balance < 0 →
      forecast_rain < -zone_state.soil_moisture_balance →
      zone_config.min_runtime ≤
        (update_zone_calculations now forecast_rain zone_config zone_state
          ).calculated.required_runtime_seconds →
      (update_zone_calculations now forecast_rain zone_config zone_state
        ).calculated.can_run = true ∧
      (update_zone_calculations now forecast_rain zone_config zone_state
        ).calculated.reason = Reason.readyToRun) ∧
    (0 ≤ zone_state.soil_moisture_balance →
      (update_zone_calculations now forecast_rain zone_config zone_state
        ).calculated.can_run = false) := by
  have habs : zone_state.soil_moisture_balance < 0 →
      |zone_state.soil_moisture_balance| = -zone_state.soil_moisture_balance :=
    fun h => abs_of_neg h
  refine ⟨?_, ?_, ?_, ?_, ?_, ?_⟩
  · intro hb
    simp [update_zone_calculations, _evaluate_can_run, hb]
  · intro hb hbal
    simp [update_zone_calculations, _evaluate_can_run, hb, hbal]
  · intro hb hbal hf
    have heff : calculate_effective_deficit
        zone_state.soil_moisture_balance forecast_rain = 0 := by
      unfold calculate_effective_deficit
      rw [if_neg (not_le.mpr hbal), habs hbal, max_eq_left (by linarith)]
    simp [update_zone_calculations, _evaluate_can_run, hb, heff,
      not_le.mpr hbal]
  · intro hb hbal hf hreq
    have heff : calculate_effective_deficit
        zone_state.soil_moisture_balance forecast_rain =
        -zone_state.soil_moisture_balance - forecast_rain := by
      unfold calculate_effective_deficit
      rw [if_neg (not_le.mpr hbal), habs hbal, max_eq_right (by linarith)]
    have heffpos : 0 < calculate_effective_deficit
        zone_state.soil_moisture_balance forecast_rain := by
      rw [heff]; linarith
    simp only [update_zone_calculations, _evaluate_can_run] at hreq ⊢
    simp [hb, not_le.mpr hbal, not_le.mpr heffpos, hreq]
  · intro hb hbal hf hreq
    have heff : calculate_effective_deficit
        zone_state.soil_moisture_balance forecast_rain =
        -zone_state.soil_moisture_balance - forecast_rain := by
      unfold calculate_effective_deficit
      rw [if_neg (not_le.mpr hbal), habs hbal, max_eq_right (by linarith)]
    have heffpos : 0 < calculate_effective_deficit
        zone_state.soil_moisture_balance forecast_rain := by
      rw [heff]; linarith
    simp only [update_zone_calculations, _evaluate_can_run] at hreq ⊢
    simp [hb, not_le.mpr hbal, not_le.mpr heffpos, not_lt.mpr hreq]
  · intro hbal
    by_cases hb : min_interval_blocked zone_config zone_state now
    · simp [update_zone_calculations, _evaluate_can_run, hb]
    · simp [update_zone_calculations, _evaluate_can_run, hb, hbal]

/-- Witness for C3: at spec Example 2-style inputs (balance −5,
forecast 6, no interval block) the third branch fires. -/
theorem evaluate_can_run_order_witness :
    (update_zone_calculations 0 6 exampleConfig
      { freshZone with soil_moisture_balance := -5 }
      ).calculated.can_run = false ∧
    (update_zone_calculations 0 6 exampleConfig
      { freshZone with soil_moisture_balance := -5 }
      ).calculated.reason = Reason.forecastCoversDeficit :=
  (evaluate_can_run_order 0 6 exampleConfig
      { freshZone with soil_moisture_balance := -5 }).2.2.1
    (by simp [min_interval_blocked, freshZone])
    (by norm_num [freshZone])
    (by norm_num [freshZone])

/-- C10: `calculate_runtime_seconds` is total: whenever
`deficit_mm ≤ 0` or `precipitation_rate ≤ 0` it returns 0 via the guard
branch, so the division branch only executes with a strictly positive
divisor, where the result is the source's `deficit / rate * 3600`. -/
theorem calculate_runtime_seconds_total (deficit_mm precipitation_rate : ℚ) :
    ((deficit_mm ≤ 0 ∨ precipitation_rate ≤ 0) →
      calculate_runtime_seconds deficit_mm precipitation_rate = 0) ∧
    (¬(deficit_mm ≤ 0 ∨ precipitation_rate ≤ 0) →
      0 < precipitation_rate ∧
      calculate_runtime_seconds deficit_mm precipitation_rate =
        deficit_mm / precipitation_rate * 3600) := by
  constructor
  · intro h
    unfold calculate_runtime_seconds
    exact if_pos h
  · intro h
    push_neg at h
    refine ⟨h.2, ?_⟩
    unfold calculate_runtime_seconds
    rw [if_neg]
    push_neg
    exact h

/-- Witness for C10: the guard at (−5, 0) and the division branch at
(12, 10). -/
theorem calculate_runtime_seconds_total_witness :
    calculate_runtime_seconds (-5) 0 = 0 ∧
    (0 : ℚ) < 10 ∧ calculate_runtime_seconds 12 10 = 12 / 10 * 3600 :=
  ⟨(calculate_runtime_seconds_total (-5) 0).1 (by norm_num),
   (calculate_runtime_seconds_total 12 10).2 (by norm_num)⟩

/-- Counterexample to C1 as stated: with balance −12 mm, rate 10 mm/h,
clamp [60, 3600], interval 3600 s, `sprinkler_off_time = 0` and
`now = 100` (interval not yet met), `can_run` is false yet
`clamped_runtime_seconds` is 3600, not 0: the snapshot keeps the
computed clamped runtime even in failing branches. -/
theorem clamped_runtime_nonzero_when_blocked :
    (update_zone_calculations 100 0 exampleConfig
      { freshZone with
          soil_moisture_balance := -12
          sprinkler_off_time := some 0 }).calculated.can_run = false ∧
    (update_zone_calculations 100 0 exampleConfig
      { freshZone with
          soil_moisture_balance := -12
          sprinkler_off_time := some 0 }
      ).calculated.clamped_runtime_seconds = 3600 := by
  norm_num [update_zone_calculations, calculate_effective_deficit,
    calculate_runtime_seconds, _evaluate_can_run, min_interval_blocked,
    exampleConfig, freshZone]

/-- C1 (amended): for configurations with
`0 ≤ min_runtime ≤ max_runtime`, `clamped_runtime_seconds` lies in
`[min_runtime, max_runtime]` whenever `required_runtime_seconds > 0`,
and is exactly 0 whenever `required_runtime_seconds = 0`; the branches
that fail before any runtime is needed — balance ≥ 0, and forecast rain
covering the deficit (`effective_deficit ≤ 0`) — report required and
clamped runtime as 0.  (When `can_run` is false due to the
minimum-interval or runtime-too-short conditions, the clamped runtime
keeps its computed positive value.) -/
theorem clamped_runtime_bounds (now forecast_rain : ℚ)
    (zone_config : ZoneConfig) (zone_state : ZoneState)
    (hmin : 0 ≤ zone_config.min_runtime)
    (hminmax : zone_config.min_runtime ≤ zone_config.max_runtime) :
    (0 < (update_zone_calculations now forecast_rain zone_config zone_state
        ).calculated.required_runtime_seconds →
      zone_config.min_runtime ≤
        (update_zone_calculations now forecast_rain zone_config zone_state
          ).calculated.clamped_runtime_seconds ∧
      (update_zone_calculations now forecast_rain zone_config zone_state
        ).calculated.clamped_runtime_seconds ≤ zone_config.max_runtime) ∧
    ((update_zone_calculations now forecast_rain zone_config zone_state
        ).calculated.required_runtime_seconds = 0 →
      (update_zone_calculations now forecast_rain zone_config zone_state
        ).calculated.clamped_runtime_seconds = 0) ∧
    (0 ≤ zone_state.soil_moisture_balance →
      (update_zone_calculations now forecast_rain zone_config zone_state
        ).calculated.required_runtime_seconds = 0 ∧
      (update_zone_calculations now forecast_rain zone_config zone_state
        ).calculated.clamped_runtime_seconds = 0) ∧
    ((update_zone_calculations now forecast_rain zone_config zone_state
        ).calculated.effective_deficit_mm ≤ 0 →
      (update_zone_calculations now forecast_rain zone_config zone_state
        ).calculated.required_runtime_seconds = 0 ∧
      (update_zone_calculations now forecast_rain zone_config zone_state
        ).calculated.clamped_runtime_seconds = 0) := by
  refine ⟨?_, ?_, ?_, ?_⟩
  · intro hreq
    rw [calc_required_eq] at hreq
    rw [calc_clamped_eq]
    exact clamp_bound_helper _ _ _ hmin hminmax hreq
  · intro hreq
    rw [calc_required_eq] at hreq
    rw [calc_clamped_eq, hreq, if_neg (lt_irrefl 0), max_self]
  · intro hbal
    have heff := calculate_effective_deficit_of_nonneg
      zone_state.soil_moisture_balance forecast_rain hbal
    have hreq := calculate_runtime_seconds_of_nonpos _
      zone_config.precipitation_rate (le_of_eq heff)
    rw [calc_required_eq, calc_clamped_eq, hreq]
    norm_num
  · intro heffle
    rw [calc_effective_eq] at heffle
    have hreq := calculate_runtime_seconds_of_nonpos _
      zone_config.precipitation_rate heffle
    rw [calc_required_eq, calc_clamped_eq, hreq]
    norm_num

/-- Witness for C1 (amended): the zone of spec Example 1 has
`required_runtime = 4320 > 0` and its clamped runtime 3600 lies in
[60, 3600]. -/
theorem clamped_runtime_bounds_witness :
    (60 : ℚ) ≤ (update_zone_calculations 0 0 exampleConfig
      { freshZone with soil_moisture_balance := -12 }
      ).calculated.clamped_runtime_seconds ∧
    (update_zone_calculations 0 0 exampleConfig
      { freshZone with soil_moisture_balance := -12 }
      ).calculated.clamped_runtime_seconds ≤ 3600 :=
  (clamped_runtime_bounds 0 0 exampleConfig
      { freshZone with soil_moisture_balance := -12 }
      (by norm_num [exampleConfig]) (by norm_num [exampleConfig])).1
    (by norm_num [update_zone_calculations, calculate_effective_deficit,
      calculate_runtime_seconds, exampleConfig, freshZone])

end AdaptiveIrrigation

namespace AdaptiveIrrigation

/-- Counterexample to C9 as stated: two zone states with identical
balance (−12), evaluated with identical configuration, forecast (0) and
now (100), yield different snapshots — the evaluation also reads
`sprinkler_off_time` (set to 99 in the second state, within the 3600 s
minimum interval), which is not among the claim's listed inputs. -/
theorem evaluation_depends_on_off_time :
    ({ freshZone with soil_moisture_balance := -12 } :
        ZoneState).soil_moisture_balance =
      ({ freshZone with
          soil_moisture_balance := -12
          sprinkler_off_time := some 99 } : ZoneState).soil_moisture_balance ∧
    (update_zone_calculations 100 0 exampleConfig
      { freshZone with soil_moisture_balance := -12 }
      ).calculated.can_run = true ∧
    (update_zone_calculations 100 0 exampleConfig
      { freshZone with
          soil_moisture_balance := -12
          sprinkler_off_time := some 99 }).calculated.can_run = false := by
  refine ⟨rfl, ?_, ?_⟩ <;>
    norm_num [update_zone_calculations, calculate_effective_deficit,
      calculate_runtime_seconds, _evaluate_can_run, min_interval_blocked,
      exampleConfig, freshZone]

/-- C9 (amended): the evaluation is a pure deterministic function of
(balance, `sprinkler_off_time`, zone configuration, forecast rain, now):
two evaluations agreeing on these inputs produce identical
CalculatedSnapshot fields, and the evaluation changes nothing in the
zone state except the `calculated` snapshot it writes. -/
theorem evaluation_pure (now forecast_rain : ℚ) (zone_config : ZoneConfig)
    (zs1 zs2 : ZoneState)
    (hbal : zs1.soil_moisture_balance = zs2.soil_moisture_balance)
    (hoff : zs1.sprinkler_off_time = zs2.sprinkler_off_time) :
    (update_zone_calculations now forecast_rain zone_config zs1).calculated =
      (update_zone_calculations now forecast_rain zone_config zs2
        ).calculated ∧
    (update_zone_calculations now forecast_rain zone_config zs1
      ).soil_moisture_balance = zs1.soil_moisture_balance ∧
    (update_zone_calculations now forecast_rain zone_config zs1
      ).last_rainfall = zs1.last_rainfall ∧
    (update_zone_calculations now forecast_rain zone_config zs1
      ).last_et = zs1.last_et ∧
    (update_zone_calculations now forecast_rain zone_config zs1
      ).last_et_calculation = zs1.last_et_calculation ∧
    (update_zone_calculations now forecast_rain zone_config zs1
      ).last_midnight_update = zs1.last_midnight_update ∧
    (update_zone_calculations now forecast_rain zone_config zs1
      ).sprinkler_on_time = zs1.sprinkler_on_time ∧
    (update_zone_calculations now forecast_rain zone_config zs1
      ).sprinkler_off_time = zs1.sprinkler_off_time ∧
    (update_zone_calculations now forecast_rain zone_config zs1
      ).total_sprinkler_runtime_today = zs1.total_sprinkler_runtime_today := by
  refine ⟨?_, rfl, rfl, rfl, rfl, rfl, rfl, rfl, rfl⟩
  simp only [update_zone_calculations, _evaluate_can_run,
    min_interval_blocked, hbal, hoff]

/-- Witness for C9 (amended): two distinct states sharing balance −12
and a clear `sprinkler_off_time` (differing in `last_rainfall`) produce
the same snapshot, and the evaluation leaves the balance untouched. -/
theorem evaluation_pure_witness :
    (update_zone_calculations 0 0 exampleConfig
      { freshZone with soil_moisture_balance := -12 }).calculated =
      (update_zone_calculations 0 0 exampleConfig
        { freshZone with
            soil_moisture_balance := -12
            last_rainfall := 7 }).calculated ∧
    (update_zone_calculations 0 0 exampleConfig
      { freshZone with soil_moisture_balance := -12 }
      ).soil_moisture_balance =
      ({ freshZone with soil_moisture_balance := -12 } :
        ZoneState).soil_moisture_balance :=
  ⟨(evaluation_pure 0 0 exampleConfig
      { freshZone with soil_moisture_balance := -12 }
      { freshZone with soil_moisture_balance := -12, last_rainfall := 7 }
      rfl rfl).1,
   (evaluation_pure 0 0 exampleConfig
      { freshZone with soil_moisture_balance := -12 }
      { freshZone with soil_moisture_balance := -12, last_rainfall := 7 }
      rfl rfl).2.1⟩

/-- C2 evaluated at a failing input: a sprinkler turn-off at `now = 600`
for a zone whose interval opened at `sprinkler_on_time = 0` (balance
−12, rate 10 mm/h) adds the runtime (600 s) and the water
(10 × 600/3600 = 5/3 mm) and clears `sprinkler_on_time`, but leaves
`sprinkler_off_time` unset (`none`): the turn-off handler of
`state_change_listener` never stamps it, and `state.py` does not even
declare the field that `calculations.py` line 168 and `binary_sensor.py`
line 110 read. -/
theorem sprinkler_off_time_never_stamped :
    (sprinkler_turn_off 600 exampleConfig
      { freshZone with
          soil_moisture_balance := -12
          sprinkler_on_time := some 0 }).sprinkler_on_time = none ∧
    (sprinkler_turn_off 600 exampleConfig
      { freshZone with
          soil_moisture_balance := -12
          sprinkler_on_time := some 0 }).sprinkler_off_time = none ∧
    (sprinkler_turn_off 600 exampleConfig
      { freshZone with
          soil_moisture_balance := -12
          sprinkler_on_time := some 0 }
      ).total_sprinkler_runtime_today = 600 ∧
    (sprinkler_turn_off 600 exampleConfig
      { freshZone with
          soil_moisture_balance := -12
          sprinkler_on_time := some 0 }).soil_moisture_balance = -31/3 := by
  norm_num [sprinkler_turn_off, exampleConfig, freshZone]

end AdaptiveIrrigation

namespace AdaptiveIrrigation

/-- Unfolding `run_ledger` over a cons. -/
lemma run_ledger_cons (zone_config : ZoneConfig) (zone_state : ZoneState)
    (item : LedgerItem) (rest : List LedgerItem) :
    run_ledger zone_config zone_state (item :: rest) =
      run_ledger zone_config (apply_ledger_item zone_config zone_state item)
        rest := rfl

/-- One accepted ledger item adds exactly its addition to the balance. -/
lemma apply_ledger_item_balance (zone_config : ZoneConfig)
    (zone_state : ZoneState) (item : LedgerItem)
    (h : accepted_item item) :
    (apply_ledger_item zone_config zone_state item).soil_moisture_balance =
      zone_state.soil_moisture_balance +
        ledger_item_addition zone_config item := by
  cases item with
  | rain new_precip old_precip =>
    obtain ⟨hvalid, hpos, hle⟩ := h
    simp [apply_ledger_item, ledger_item_addition, hvalid, hpos,
      not_lt.mpr hle]
  | irrigation on_t off_t =>
    simp [apply_ledger_item, ledger_item_addition, sprinkler_turn_on,
      sprinkler_turn_off]

/-- C5: for every sequence of accepted rainfall events and matched
irrigation intervals, with no ET applied, the final balance equals the
initial balance plus the sum of all rainfall deltas and irrigation
additions (`precipitation_rate × duration-in-hours`): pure accumulation,
no ledger operation clamps the stored balance. -/
theorem ledger_accumulation (zone_config : ZoneConfig)
    (zone_state : ZoneState) (items : List LedgerItem)
    (h : ∀ item ∈ items, accepted_item item) :
    (run_ledger zone_config zone_state items).soil_moisture_balance =
      zone_state.soil_moisture_balance +
        (items.map (ledger_item_addition zone_config)).sum := by
  induction items generalizing zone_state with
  | nil => simp [run_ledger]
  | cons item rest ih =>
    have hitem : accepted_item item := h item (List.mem_cons_self item rest)
    have hrest : ∀ i ∈ rest, accepted_item i :=
      fun i hi => h i (List.mem_cons_of_mem _ hi)
    rw [run_ledger_cons, ih _ hrest,
      apply_ledger_item_balance zone_config zone_state item hitem,
      List.map_cons, List.sum_cons]
    ring

/-- Witness for C5: from balance −30 with rate 10 mm/h, the sequence
rain +10 mm, a 1800 s irrigation interval (+5 mm), rain +5 mm ends at
−30 + 20 = −10. -/
theorem ledger_accumulation_witness :
    (run_ledger exampleConfig
      { freshZone with soil_moisture_balance := -30 }
      [LedgerItem.rain 10 0, LedgerItem.irrigation 0 1800,
       LedgerItem.rain 15 10]).soil_moisture_balance = -10 := by
  rw [ledger_accumulation _ _ _
    (by norm_num [List.forall_mem_cons, accepted_item,
      is_valid_precipitation])]
  norm_num [ledger_item_addition, exampleConfig, freshZone,
    is_valid_precipitation]

/-- C6: a precipitation sensor update with a non-positive delta
(new − previous cumulative reading) leaves every zone untouched, a delta
greater than 200 mm is rejected with no zone change, any update that
does change the zones has a valid raw value and a delta in (0, 200], and
in that case the delta is added to every zone's balance. -/
theorem precipitation_delta_guard (new_precip : ℚ) (old_precip : Option ℚ)
    (zones : List ZoneState) (weather_precip : ℚ) :
    (new_precip - old_precip.getD 0 ≤ 0 →
      (precipitation_update new_precip old_precip zones weather_precip).1 =
        zones) ∧
    (new_precip - old_precip.getD 0 > 200 →
      (precipitation_update new_precip old_precip zones weather_precip).1 =
        zones) ∧
    ((precipitation_update new_precip old_precip zones weather_precip).1 ≠
        zones →
      is_valid_precipitation new_precip = true ∧
      0 < new_precip - old_precip.getD 0 ∧
      new_precip - old_precip.getD 0 ≤ 200) ∧
    (is_valid_precipitation new_precip = true →
      0 < new_precip - old_precip.getD 0 →
      new_precip - old_precip.getD 0 ≤ 200 →
      (precipitation_update new_precip old_precip zones weather_precip
        ).1.map ZoneState.soil_moisture_balance =
        zones.map (fun zone_state =>
          zone_state.soil_moisture_balance +
            (new_precip - old_precip.getD 0))) := by
  refine ⟨?_, ?_, ?_, ?_⟩
  · intro hle
    unfold precipitation_update
    by_cases hvalid : is_valid_precipitation new_precip
    · simp [hvalid, not_lt.mpr hle]
    · simp [hvalid]
  · intro hgt
    unfold precipitation_update
    by_cases hvalid : is_valid_precipitation new_precip
    · simp [hvalid, hgt, lt_trans (by norm_num : (0:ℚ) < 200) hgt]
    · simp [hvalid]
  · intro hne
    by_contra hcon
    apply hne
    unfold precipitation_update
    by_cases hvalid : is_valid_precipitation new_precip
    · by_cases hpos : new_precip - old_precip.getD 0 > 0
      · by_cases hbig : new_precip - old_precip.getD 0 > 200
        · simp [hvalid, hpos, hbig]
        · exact absurd ⟨hvalid, hpos, not_lt.mp hbig⟩ hcon
      · simp [hvalid, hpos]
    · simp [hvalid]
  · intro hvalid hpos hle
    unfold precipitation_update
    simp [hvalid, hpos, not_lt.mpr hle, List.map_map, Function.comp]

/-- Witness for C6: spec Example 5 (cumulative reading 40 mm then 25 mm,
a rollback: no change), and an accepted 15 mm delta added to a single
zone at balance −30. -/
theorem precipitation_delta_guard_witness :
    (precipitation_update 25 (some 40)
      [{ freshZone with soil_moisture_balance := -30 }] 40).1 =
      [{ freshZone with soil_moisture_balance := -30 }] ∧
    (precipitation_update 40 (some 25)
      [{ freshZone with soil_moisture_balance := -30 }] 25
      ).1.map ZoneState.soil_moisture_balance = [-30 + (40 - 25)] :=
  ⟨(precipitation_delta_guard 25 (some 40)
      [{ freshZone with soil_moisture_balance := -30 }] 40).1
    (by norm_num),
   by
    have h := (precipitation_delta_guard 40 (some 25)
      [{ freshZone with soil_moisture_balance := -30 }] 25).2.2.2
      (by norm_num [is_valid_precipitation]) (by norm_num) (by norm_num)
    simpa [freshZone] using h⟩

/-- C7: if the ET formula library cannot be imported, or the day's mean
temperature or mean humidity data is unavailable (no validated
readings), the daily ET computation returns with every zone's
`soil_moisture_balance`, `last_et`, `last_et_calculation` and
`total_sprinkler_runtime_today` unmodified, and no formula invoked. -/
theorem et_skipped_when_inputs_missing (pyet_available : Bool)
    (temp_data humidity_data : List ℚ)
    (wind_configured solar_configured : Bool)
    (wind_data solar_data : List ℚ) (et_method : ETMethod)
    (et_result : ETFormula → ℚ) (now : ℚ)
    (zones : List (ZoneConfig × ZoneState))
    (h : pyet_available = false ∨ temp_data = [] ∨ humidity_data = []) :
    calculate_and_apply_et pyet_available temp_data humidity_data
      wind_configured solar_configured wind_data solar_data et_method
      et_result now zones = (zones, none) := by
  cases pyet_available <;> rcases h with h | h | h <;>
    simp_all [calculate_and_apply_et]

/-- Witness for C7: temperature data present but no humidity readings
for the day — the computation skips, leaving the zone list as it was. -/
theorem et_skipped_when_inputs_missing_witness :
    calculate_and_apply_et true [20] [] true true [12] [300]
      ETMethod.penman_monteith (fun _ => 5) 0
      [(exampleConfig, freshZone)] = ([(exampleConfig, freshZone)], none) :=
  et_skipped_when_inputs_missing true [20] [] true true [12] [300]
    ETMethod.penman_monteith (fun _ => 5) 0 [(exampleConfig, freshZone)]
    (Or.inr (Or.inr rfl))

/-- A non-empty list has `isEmpty = false`. -/
lemma isEmpty_false_of_ne_nil {α : Type} (l : List α) (h : l ≠ []) :
    l.isEmpty = false := by
  cases l with
  | nil => exact absurd rfl h
  | cons a t => rfl

/-- When `auto_select_et_method` picks Penman-Monteith, both channels
are configured. -/
lemma auto_select_pm (wind_configured solar_configured : Bool)
    (h : auto_select_et_method wind_configured solar_configured =
      ETMethod.penman_monteith) :
    wind_configured = true ∧ solar_configured = true := by
  cases wind_configured <;> cases solar_configured <;>
    simp_all [auto_select_et_method]

/-- When `auto_select_et_method` picks Priestley-Taylor, solar is
configured and wind is not. -/
lemma auto_select_pt (wind_configured solar_configured : Bool)
    (h : auto_select_et_method wind_configured solar_configured =
      ETMethod.priestley_taylor) :
    wind_configured = false ∧ solar_configured = true := by
  cases wind_configured <;> cases solar_configured <;>
    simp_all [auto_select_et_method]

/-- With `pyet` importable and temperature/humidity data present, the
invoked formula is the dispatch of `__init__.py` lines 547-568. -/
lemma calculate_and_apply_et_formula (temp_data humidity_data : List ℚ)
    (wind_configured solar_configured : Bool)
    (wind_data solar_data : List ℚ) (et_method : ETMethod)
    (et_result : ETFormula → ℚ) (now : ℚ)
    (zones : List (ZoneConfig × ZoneState))
    (hte : temp_data.isEmpty = false) (hhe : humidity_data.isEmpty = false) :
    (calculate_and_apply_et true temp_data humidity_data wind_configured
      solar_configured wind_data solar_data et_method et_result now
      zones).2 =
    some (match et_method with
      | ETMethod.penman_monteith =>
        if (wind_configured && !wind_data.isEmpty) &&
            (solar_configured && !solar_data.isEmpty) then
          ETFormula.pm_fao56
        else ETFormula.hargreaves
      | ETMethod.priestley_taylor =>
        if solar_configured && !solar_data.isEmpty then
          ETFormula.priestley_taylor
        else ETFormula.hargreaves
      | ETMethod.hargreaves => ETFormula.hargreaves) := by
  unfold calculate_and_apply_et
  simp [hte, hhe]

/-- C8: ET method selection is decided once from the configured
channels (wind and solar → Penman-Monteith, solar only →
Priestley-Taylor, otherwise Hargreaves), and at computation time the
selected method downgrades to the temperature-only Hargreaves formula
for the day when its extra inputs have no validated readings, instead of
failing; with the inputs present, the selected family's formula runs. -/
theorem et_method_selection_and_downgrade
    (wind_configured solar_configured : Bool)
    (temp_data humidity_data wind_data solar_data : List ℚ)
    (et_result : ETFormula → ℚ) (now : ℚ)
    (zones : List (ZoneConfig × ZoneState))
    (ht : temp_data ≠ []) (hh : humidity_data ≠ []) :
    (wind_configured = true → solar_configured = true →
      auto_select_et_method wind_configured solar_configured =
        ETMethod.penman_monteith) ∧
    (wind_configured = false → solar_configured = true →
      auto_select_et_method wind_configured solar_configured =
        ETMethod.priestley_taylor) ∧
    (solar_configured = false →
      auto_select_et_method wind_configured solar_configured =
        ETMethod.hargreaves) ∧
    (auto_select_et_method wind_configured solar_configured =
        ETMethod.penman_monteith → wind_data ≠ [] → solar_data ≠ [] →
      (calculate_and_apply_et true temp_data humidity_data wind_configured
        solar_configured wind_data solar_data
        (auto_select_et_method wind_configured solar_configured) et_result
        now zones).2 = some ETFormula.pm_fao56) ∧
    (auto_select_et_method wind_configured solar_configured =
        ETMethod.penman_monteith → wind_data = [] ∨ solar_data = [] →
      (calculate_and_apply_et true temp_data humidity_data wind_configured
        solar_configured wind_data solar_data
        (auto_select_et_method wind_configured solar_configured) et_result
        now zones).2 = some ETFormula.hargreaves) ∧
    (auto_select_et_method wind_configured solar_configured =
        ETMethod.priestley_taylor → solar_data ≠ [] →
      (calculate_and_apply_et true temp_data humidity_data wind_configured
        solar_configured wind_data solar_data
        (auto_select_et_method wind_configured solar_configured) et_result
        now zones).2 = some ETFormula.priestley_taylor) ∧
    (auto_select_et_method wind_configured solar_configured =
        ETMethod.priestley_taylor → solar_data = [] →
      (calculate_and_apply_et true temp_data humidity_data wind_configured
        solar_configured wind_data solar_data
        (auto_select_et_method wind_configured solar_configured) et_result
        now zones).2 = some ETFormula.hargreaves) ∧
    (auto_select_et_method wind_configured solar_configured =
        ETMethod.hargreaves →
      (calculate_and_apply_et true temp_data humidity_data wind_configured
        solar_configured wind_data solar_data
        (auto_select_et_method wind_configured solar_configured) et_result
        now zones).2 = some ETFormula.hargreaves) := by
  have hte : temp_data.isEmpty = false := isEmpty_false_of_ne_nil _ ht
  have hhe : humidity_data.isEmpty = false := isEmpty_false_of_ne_nil _ hh
  refine ⟨?_, ?_, ?_, ?_, ?_, ?_, ?_, ?_⟩
  · intro h1 h2
    rw [h1, h2]
    rfl
  · intro h1 h2
    rw [h1, h2]
    rfl
  · intro h1
    rw [h1]
    cases wind_configured <;> rfl
  · intro h1 h2 h3
    obtain ⟨hwc, hsc⟩ := auto_select_pm _ _ h1
    rw [h1, calculate_and_apply_et_formula _ _ _ _ _ _ _ _ _ _ hte hhe]
    simp [hwc, hsc, isEmpty_false_of_ne_nil _ h2,
      isEmpty_false_of_ne_nil _ h3]
  · intro h1 h2
    obtain ⟨hwc, hsc⟩ := auto_select_pm _ _ h1
    rw [h1, calculate_and_apply_et_formula _ _ _ _ _ _ _ _ _ _ hte hhe]
    rcases h2 with h2 | h2 <;> subst h2 <;> simp [hwc, hsc]
  · intro h1 h2
    obtain ⟨hwc, hsc⟩ := auto_select_pt _ _ h1
    rw [h1, calculate_and_apply_et_formula _ _ _ _ _ _ _ _ _ _ hte hhe]
    simp [hsc, isEmpty_false_of_ne_nil _ h2]
  · intro h1 h2
    obtain ⟨hwc, hsc⟩ := auto_select_pt _ _ h1
    rw [h1, calculate_and_apply_et_formula _ _ _ _ _ _ _ _ _ _ hte hhe]
    subst h2
    simp [hsc]
  · intro h1
    rw [h1, calculate_and_apply_et_formula _ _ _ _ _ _ _ _ _ _ hte hhe]

/-- Witness for C8: wind and solar configured (Penman-Monteith) but no
validated wind readings that day — the invoked formula is Hargreaves. -/
theorem et_method_selection_and_downgrade_witness :
    auto_select_et_method true true = ETMethod.penman_monteith ∧
    (calculate_and_apply_et true [20] [50] true true [] [300]
      (auto_select_et_method true true) (fun _ => 5) 0
      [(exampleConfig, freshZone)]).2 = some ETFormula.hargreaves :=
  ⟨(et_method_selection_and_downgrade true true [20] [50] [] [300]
      (fun _ => 5) 0 [(exampleConfig, freshZone)]
      (by norm_num) (by norm_num)).1 rfl rfl,
   (et_method_selection_and_downgrade true true [20] [50] [] [300]
      (fun _ => 5) 0 [(exampleConfig, freshZone)]
      (by norm_num) (by norm_num)).2.2.2.2.1 (by rfl) (Or.inl rfl)⟩

end AdaptiveIrrigation
